import Mathlib

/-!
Verification development for the asynchronous job submission and
processing pipeline of the repository (a Vite + Cloudflare Workers
expense-tracking app).  The definitions below are a shallow embedding of
the code in `worker/trpc` (the tRPC context, the extraction enqueue
mutation, the products router and the Drizzle schema), together with a
model, written from the specification, of the queue consumer contract
and the job record store that the specification designs but the
repository does not yet implement.
-/

/-- A message published to the AI extraction queue, as built in
`extractionRouter.enqueue`: the caller-supplied text together with the
generated job identifier, serialised as JSON. -/
structure QueueMessage where
  text : String
  jobId : String
deriving DecidableEq, Repr

/-- Model of `crypto.randomUUID()`: each call draws from a per-isolate
freshness counter, and the identifier issued for counter value `n` is an
injective rendering of `n` as a decimal string.  Injectivity of the
rendering models the uniqueness guarantee of version-4 UUID generation. -/
def genUUID (n : Nat) : String :=
  String.mk ((Nat.digits 10 n).reverse.map Nat.digitChar)

/-- The decimal digit characters determine the digit: `Nat.digitChar`
restricted to digits below ten is injective. -/
theorem digitChar_injOn_lt :
    ∀ a : Fin 10, ∀ b : Fin 10,
      Nat.digitChar a.val = Nat.digitChar b.val → a.val = b.val := by
  decide

/-- Mapping `Nat.digitChar` over lists of digits below ten is injective. -/
theorem map_digitChar_inj :
    ∀ l₁ l₂ : List Nat, (∀ x ∈ l₁, x < 10) → (∀ x ∈ l₂, x < 10) →
      l₁.map Nat.digitChar = l₂.map Nat.digitChar → l₁ = l₂ := by
  intro l₁
  induction l₁ with
  | nil =>
    intro l₂ _ _ h
    cases l₂ with
    | nil => rfl
    | cons b t₂ => simp at h
  | cons a t ih =>
    intro l₂ h₁ h₂ h
    cases l₂ with
    | nil => simp at h
    | cons b t₂ =>
      simp only [List.map_cons, List.cons.injEq] at h
      have ha : a < 10 := h₁ a (by simp)
      have hb : b < 10 := h₂ b (by simp)
      have hab : a = b := digitChar_injOn_lt ⟨a, ha⟩ ⟨b, hb⟩ h.1
      subst hab
      have ht : t = t₂ :=
        ih t₂ (fun x hx => h₁ x (by simp [hx])) (fun x hx => h₂ x (by simp [hx])) h.2
      rw [ht]

/-- Distinct counter values yield distinct identifiers: the model of
`crypto.randomUUID()` never repeats an identifier. -/
theorem genUUID_injective : Function.Injective genUUID := by
  intro m n h
  have hdata : (Nat.digits 10 m).reverse.map Nat.digitChar
      = (Nat.digits 10 n).reverse.map Nat.digitChar :=
    congrArg String.data h
  have hm : ∀ x ∈ (Nat.digits 10 m).reverse, x < 10 := by
    intro x hx
    exact Nat.digits_lt_base (by norm_num) (List.mem_reverse.mp hx)
  have hn : ∀ x ∈ (Nat.digits 10 n).reverse, x < 10 := by
    intro x hx
    exact Nat.digits_lt_base (by norm_num) (List.mem_reverse.mp hx)
  have hrev := map_digitChar_inj _ _ hm hn hdata
  have hdig : Nat.digits 10 m = Nat.digits 10 n := by
    have := congrArg List.reverse hrev
    simpa using this
  exact Nat.digits.injective 10 hdig

/-- The Queue Transport binding (`env.AI_EXTRACTION_QUEUE`): the durable
channel holding the published messages, together with whether the
transport is currently able to accept a publish. -/
structure Queue where
  up : Bool
  messages : List QueueMessage
deriving DecidableEq, Repr

/-- Worker environment bindings: the database connection string and the
extraction queue binding, as read by the tRPC procedures from `ctx.env`. -/
structure Env where
  DATABASE_URL : String
  AI_EXTRACTION_QUEUE : Queue
deriving DecidableEq, Repr

/-- An incoming HTTP request: its headers (name/value pairs, including
any `Authorization` header) and its body. -/
structure Request where
  headers : List (String × String)
  body : String
deriving DecidableEq, Repr

/-- The database client returned by `getDb`, determined entirely by the
connection string it was constructed from. -/
structure Db where
  url : String
deriving DecidableEq, Repr

/-- Embedding of `getDb` from `@worker/db`: constructs the database
client for a connection string. -/
def getDb (url : String) : Db := ⟨url⟩

/-- The tRPC request context, as built by `createContext` in
`worker/trpc/context.ts`: the raw request, the environment, and a
database client.  The source also carries the worker execution context,
modelled here as a unit token. -/
structure Context where
  req : Request
  env : Env
  workerCtx : Unit
  db : Db
deriving DecidableEq, Repr

/-- Embedding of `createContext`: it passes the request and environment
through unchanged and constructs the database client from
`env.DATABASE_URL`.  It reads no header and attaches no user identity. -/
def createContext (req : Request) (env : Env) : Context :=
  { req := req, env := env, workerCtx := (), db := getDb env.DATABASE_URL }

/-- Outcome of `queue.send(...)`: the message is appended to the channel
when the transport is up, and the returned promise rejects otherwise. -/
def queueSend (q : Queue) (m : QueueMessage) : Except Unit Queue :=
  if q.up then Except.ok ⟨q.up, q.messages ++ [m]⟩ else Except.error ()

/-- Errors the enqueue mutation can surface to the caller: a zod
validation error (input rejected before the handler runs) or a rejected
queue publish propagated by `await`. -/
inductive EnqueueError
  | validation
  | transport
deriving DecidableEq, Repr

/-- Successful response of the enqueue mutation. -/
structure EnqueueOk where
  jobId : String
  status : String
deriving DecidableEq, Repr

/-- Embedding of `extractionRouter.enqueue`.  The zod schema
`z.object(\x7btext: z.string().min(1)\x7d)` rejects inputs whose text is
shorter than one character before the handler runs, so nothing is
published.  Otherwise the handler generates `jobId = crypto.randomUUID()`
(modelled by `genUUID` at the current freshness counter `ctr`), awaits
`ctx.env.AI_EXTRACTION_QUEUE.send(\x7btext, jobId\x7d)` — a rejection of
which propagates to the caller as an error — and returns
`\x7bjobId, status: "queued"\x7d`.  The result is the tRPC response
together with the queue binding after the call and the new freshness
counter. -/
def enqueue (ctx : Context) (ctr : Nat) (text : String) :
    Except EnqueueError EnqueueOk × Queue × Nat :=
  if 1 ≤ text.length then
    let jobId := genUUID ctr
    match queueSend ctx.env.AI_EXTRACTION_QUEUE ⟨text, jobId⟩ with
    | Except.ok q' => (Except.ok ⟨jobId, "queued"⟩, q', ctr + 1)
    | Except.error _ => (Except.error EnqueueError.transport, ctx.env.AI_EXTRACTION_QUEUE, ctr + 1)
  else
    (Except.error EnqueueError.validation, ctx.env.AI_EXTRACTION_QUEUE, ctr)

example :
    enqueue (createContext ⟨[], ""⟩ ⟨"db", ⟨true, []⟩⟩) 0 "hello"
      = (Except.ok ⟨genUUID 0, "queued"⟩, ⟨true, [⟨"hello", genUUID 0⟩]⟩, 1) := by
  rfl

example :
    enqueue (createContext ⟨[], ""⟩ ⟨"db", ⟨true, []⟩⟩) 0 ""
      = (Except.error EnqueueError.validation, ⟨true, []⟩, 0) := by
  rfl

/-- Modelled from the spec: the status of a Job
(`queued`, `processing`, `succeeded`, `failed`), section 3 of the
specification; the repository has no job record code yet. -/
inductive JobStatus
  | queued
  | processing
  | succeeded
  | failed
deriving DecidableEq, Repr

/-- Modelled from the spec: a Job record, section 3 — identifier,
caller-supplied payload, status, and the optional result and error
fields. -/
structure Job where
  id : String
  payload : String
  status : JobStatus
  result : Option String
  error : Option String
deriving DecidableEq, Repr

/-- Modelled from the spec: the Job Record Store, section 4.3 — a
persistent mapping from job identifier to Job, absent from the current
code and modelled as an association list. -/
abbrev JobStore := List (String × Job)

/-- Modelled from the spec: `get(id) -> Job | not found` on the Job
Record Store. -/
def JobStore.get : JobStore → String → Option Job
  | [], _ => none
  | (k, j) :: rest, id => if k = id then some j else JobStore.get rest id

/-- Update the record bound to `id` in the store, leaving every other
record in place (the write half of the store operations). -/
def JobStore.set : JobStore → String → Job → JobStore
  | [], _, _ => []
  | (k, j) :: rest, id, j' =>
      if k = id then (k, j') :: rest else (k, j) :: JobStore.set rest id j'

/-- Modelled from the spec: `create(id, payload) -> Job`, section 4.3 —
fails if `id` already exists, otherwise records a fresh Job in `queued`
state with no result and no error. -/
def JobStore.create (st : JobStore) (id payload : String) : Except Unit JobStore :=
  match JobStore.get st id with
  | some _ => Except.error ()
  | none => Except.ok (st ++ [(id, ⟨id, payload, JobStatus.queued, none, none⟩)])

/-- Outcome of a compare-and-swap transition on the Job Record Store. -/
inductive TransitionOutcome
  | ok
  | conflict
  | notFound
deriving DecidableEq, Repr

/-- Result of a transition call: its outcome together with the store
after the call. -/
structure TransitionResult where
  outcome : TransitionOutcome
  store : JobStore
deriving DecidableEq, Repr

/-- Modelled from the spec:
`transition(id, from_status_set, to_status, fields) -> ok | conflict`,
section 4.3 — a compare-and-swap-style transition that fails with a
conflict error if the job's current status is not in `from_status_set`;
on success it moves the job to `to_status` and writes the supplied
result and error fields. -/
def transition (st : JobStore) (id : String) (fromSet : List JobStatus)
    (toStatus : JobStatus) (result : Option String) (error : Option String) :
    TransitionResult :=
  match JobStore.get st id with
  | none => ⟨TransitionOutcome.notFound, st⟩
  | some job =>
      if job.status ∈ fromSet then
        ⟨TransitionOutcome.ok,
          JobStore.set st id { job with status := toStatus, result := result, error := error }⟩
      else
        ⟨TransitionOutcome.conflict, st⟩

/-- Outcome of the extraction operation a consumer runs on a message's
text (a placeholder in the repository). -/
inductive ExtractOutcome
  | success (result : String)
  | failure (msg : String)

/-- Modelled from the spec: the Queue Consumer contract, section 4.2,
for a single delivered message.  The consumer first consults the Job
Record Store: a job already `succeeded` is a duplicate delivery and the
message is a no-op (idempotency).  Otherwise it claims the job with a
compare-and-swap `queued -> processing` (a conflict — a concurrent
in-flight consumer or a terminal record — is treated as a successful
no-op, section 7), runs the extraction, and records the terminal
transition `processing -> succeeded` with the result, or
`processing -> failed` with the error.  A message whose job identifier
has no record is left untouched (the record is created at submission).
Returns the store after the call and whether the extraction logic ran. -/
def consumeMessage (extract : String → ExtractOutcome) (st : JobStore)
    (m : QueueMessage) : JobStore × Bool :=
  match JobStore.get st m.jobId with
  | none => (st, false)
  | some job =>
      if job.status = JobStatus.succeeded then
        (st, false)
      else
        let t₁ := transition st m.jobId [JobStatus.queued] JobStatus.processing none none
        match t₁.outcome with
        | TransitionOutcome.ok =>
            match extract m.text with
            | ExtractOutcome.success r =>
                ((transition t₁.store m.jobId [JobStatus.processing]
                    JobStatus.succeeded (some r) none).store, true)
            | ExtractOutcome.failure e =>
                ((transition t₁.store m.jobId [JobStatus.processing]
                    JobStatus.failed none (some e)).store, true)
        | TransitionOutcome.conflict => (st, false)
        | TransitionOutcome.notFound => (st, false)

/-- Rank of a status along the lifecycle
`queued -> processing -> (succeeded | failed)`; the terminal states
share the top rank. -/
def statusRank : JobStatus → Nat
  | JobStatus.queued => 0
  | JobStatus.processing => 1
  | JobStatus.succeeded => 2
  | JobStatus.failed => 2

/-- Kinds of columns used by the products schema in `db/schema.ts`. -/
inductive ColumnKind
  | serial
  | text
  | doublePrecision
deriving DecidableEq, Repr

/-- A Drizzle column declaration: the underlying database column name it
is mapped to, its kind, and whether it is the primary key. -/
structure Column where
  columnName : String
  kind : ColumnKind
  primaryKey : Bool
deriving DecidableEq, Repr

/-- The products table declaration as a record of its column
declarations. -/
structure ProductsTable where
  tableName : String
  id : Column
  name : Column
  description : Column
  price : Column
deriving DecidableEq, Repr

/-- Embedding of `products` from `db/schema.ts`:
`pgTable("products", ...)` with `id: serial("id").primaryKey()`,
`name: text("name")`, `description: text("name")`,
`price: doublePrecision("price")`. -/
def products : ProductsTable where
  tableName := "products"
  id := ⟨"id", ColumnKind.serial, true⟩
  name := ⟨"name", ColumnKind.text, false⟩
  description := ⟨"name", ColumnKind.text, false⟩
  price := ⟨"price", ColumnKind.doublePrecision, false⟩

/-- A row of the products table as returned to the client. -/
structure ProductRow where
  id : Int
  name : Option String
  description : Option String
  price : Option Float

/-- The state of the external database reachable through a connection:
the rows currently stored in the products table. -/
structure DbState where
  productsRows : List ProductRow

/-- Embedding of `productsRouter.list`: the handler runs
`ctx.db.select().from(products)` — a select with no where clause, no
projection and no authorization check — and returns the result
unchanged.  The external database server is modelled as a map from
connection string to database state. -/
def productsList (server : String → DbState) (ctx : Context) : List ProductRow :=
  (server ctx.db.url).productsRows

/-- Claim C1: for every request whose text is a non-empty string, the
enqueue operation succeeds and returns the freshly generated job
identifier with status `"queued"`; the identifier is unique (the
generator never repeats), the freshness counter advances, and the call
returns synchronously — its result is a pure function of the request,
independent of any later processing. -/
theorem enqueue_nonempty_returns_queued (req : Request) (env : Env) (ctr : Nat)
    (text : String) (htext : 1 ≤ text.length)
    (hup : env.AI_EXTRACTION_QUEUE.up = true) :
    (enqueue (createContext req env) ctr text).1
        = Except.ok ⟨genUUID ctr, "queued"⟩
    ∧ (enqueue (createContext req env) ctr text).2.2 = ctr + 1
    ∧ (∀ ctr₂ : Nat, ctr₂ ≠ ctr → genUUID ctr₂ ≠ genUUID ctr) := by
  refine ⟨?_, ?_, ?_⟩
  · simp [enqueue, queueSend, createContext, htext, hup]
  · simp [enqueue, queueSend, createContext, htext, hup]
  · intro ctr₂ hne hcontra
    exact hne (genUUID_injective hcontra)

/-- Witness for claim C1 at a concrete request. -/
theorem enqueue_nonempty_returns_queued_witness :
    (enqueue (createContext ⟨[], ""⟩ ⟨"db", ⟨true, []⟩⟩) 0 "hello").1
      = Except.ok ⟨genUUID 0, "queued"⟩ :=
  (enqueue_nonempty_returns_queued ⟨[], ""⟩ ⟨"db", ⟨true, []⟩⟩ 0 "hello"
    (by decide) rfl).1

/-- Claim C2: for every request whose text is the empty string, the
enqueue operation fails with a validation error, no message is published
to the Queue Transport (the queue binding is returned unchanged, whether
or not the transport is up), and no identifier is consumed. -/
theorem enqueue_empty_text_rejected (req : Request) (env : Env) (ctr : Nat) :
    enqueue (createContext req env) ctr ""
      = (Except.error EnqueueError.validation, env.AI_EXTRACTION_QUEUE, ctr) :=
  rfl

/-- Claim C3: the enqueue operation returns success only if the publish
to the Queue Transport succeeded; a rejected publish propagates through
the awaited send as an error to the caller instead of a
`queued` response. -/
theorem enqueue_ok_requires_publish (ctx : Context) (ctr : Nat) (text : String)
    (r : EnqueueOk) (h : (enqueue ctx ctr text).1 = Except.ok r) :
    ctx.env.AI_EXTRACTION_QUEUE.up = true := by
  by_cases hlen : 1 ≤ text.length
  · by_cases hup : ctx.env.AI_EXTRACTION_QUEUE.up = true
    · exact hup
    · simp [enqueue, queueSend, hlen, hup] at h
  · simp [enqueue, hlen] at h

/-- Witness for claim C3 at a concrete request. -/
theorem enqueue_ok_requires_publish_witness :
    (⟨⟨[], ""⟩, ⟨"db", ⟨true, []⟩⟩, (), ⟨"db"⟩⟩ : Context).env.AI_EXTRACTION_QUEUE.up
      = true :=
  enqueue_ok_requires_publish ⟨⟨[], ""⟩, ⟨"db", ⟨true, []⟩⟩, (), ⟨"db"⟩⟩ 0 "hi"
    ⟨genUUID 0, "queued"⟩ rfl

/-- Claim C4: for every accepted request, the enqueue operation performs
exactly one publish to the Queue Transport and nothing else: the queue
gains exactly the single message carrying the caller's text unchanged
together with the returned job identifier, and the only other state
change is the consumed freshness counter. -/
theorem enqueue_publishes_exactly_once (req : Request) (env : Env) (ctr : Nat)
    (text : String) (htext : 1 ≤ text.length)
    (hup : env.AI_EXTRACTION_QUEUE.up = true) :
    enqueue (createContext req env) ctr text
      = (Except.ok ⟨genUUID ctr, "queued"⟩,
         ⟨true, env.AI_EXTRACTION_QUEUE.messages ++ [⟨text, genUUID ctr⟩]⟩,
         ctr + 1) := by
  simp [enqueue, queueSend, createContext, htext, hup]

/-- Witness for claim C4 at a concrete request. -/
theorem enqueue_publishes_exactly_once_witness :
    enqueue (createContext ⟨[], ""⟩ ⟨"db", ⟨true, []⟩⟩) 0 "hello"
      = (Except.ok ⟨genUUID 0, "queued"⟩, ⟨true, [⟨"hello", genUUID 0⟩]⟩, 1) :=
  enqueue_publishes_exactly_once ⟨[], ""⟩ ⟨"db", ⟨true, []⟩⟩ 0 "hello"
    (by decide) rfl

/-- Claim C8: context creation never inspects the request's headers and
attaches no user identity — it passes the request through and builds the
rest of the context from the environment alone — so two enqueue requests
that differ only in their headers (for example the Authorization header)
behave identically: same acceptance decision, same result, same
published messages. -/
theorem enqueue_independent_of_headers (h₁ h₂ : List (String × String))
    (body : String) (env : Env) (ctr : Nat) (text : String) :
    createContext ⟨h₁, body⟩ env
        = ⟨⟨h₁, body⟩, env, (), getDb env.DATABASE_URL⟩
    ∧ enqueue (createContext ⟨h₁, body⟩ env) ctr text
        = enqueue (createContext ⟨h₂, body⟩ env) ctr text :=
  ⟨rfl, rfl⟩

/-- Claim C9: in the products table declaration, the `description` field
is mapped to the underlying database column `"name"` — the same column
the `name` field is mapped to — so the two entity fields do not denote
independent columns. -/
theorem products_description_shares_name_column :
    products.description.columnName = "name"
    ∧ products.description.columnName = products.name.columnName :=
  ⟨rfl, rfl⟩

/-- Claim C10: the products list query returns the full contents of the
products table unchanged — every row, no filtering or projection — and
applies no authorization precondition: its result does not depend on the
request's headers. -/
theorem productsList_returns_table_unchanged (server : String → DbState)
    (req : Request) (env : Env) :
    productsList server (createContext req env)
        = (server env.DATABASE_URL).productsRows
    ∧ ∀ (h₁ h₂ : List (String × String)) (body : String),
        productsList server (createContext ⟨h₁, body⟩ env)
          = productsList server (createContext ⟨h₂, body⟩ env) :=
  ⟨rfl, fun _ _ _ => rfl⟩

/-- Looking up a key right after writing it returns the written record,
provided the key was present in the store. -/
theorem JobStore.get_set_self (st : JobStore) (id : String) (j j₀ : Job)
    (h : JobStore.get st id = some j₀) :
    JobStore.get (JobStore.set st id j) id = some j := by
  induction st with
  | nil => simp [JobStore.get] at h
  | cons p rest ih =>
    obtain ⟨k, jb⟩ := p
    by_cases hk : k = id
    · simp [JobStore.get, JobStore.set, hk]
    · simp only [JobStore.get, JobStore.set, hk, if_false] at h ⊢
      exact ih h

/-- Looking up a different key after a write is unaffected by the
write. -/
theorem JobStore.get_set_ne (st : JobStore) (id id' : String) (j : Job)
    (hne : id' ≠ id) :
    JobStore.get (JobStore.set st id j) id' = JobStore.get st id' := by
  induction st with
  | nil => rfl
  | cons p rest ih =>
    obtain ⟨k, jb⟩ := p
    by_cases hk : k = id
    · subst hk
      have hk' : ¬ k = id' := fun hc => hne (hc.symm)
      simp [JobStore.get, JobStore.set, hk']
    · by_cases hk' : k = id'
      · simp [JobStore.get, JobStore.set, hk, hk', hne]
      · simp only [JobStore.get, JobStore.set, hk, hk', if_false]
        exact ih

/-- A record present in a store is still found after appending fresh
entries on the right. -/
theorem JobStore.get_append_of_some (st l : JobStore) (id : String) (j : Job)
    (h : JobStore.get st id = some j) :
    JobStore.get (st ++ l) id = some j := by
  induction st with
  | nil => simp [JobStore.get] at h
  | cons p rest ih =>
    obtain ⟨k, jb⟩ := p
    by_cases hk : k = id
    · simp only [JobStore.get, hk, if_true] at h
      simp [JobStore.get, hk, h]
    · simp only [JobStore.get, hk, if_false] at h
      simp only [List.cons_append, JobStore.get, hk, if_false]
      exact ih h

/-- Consuming a message whose job identifier has no record leaves the
store unchanged and runs no extraction. -/
theorem consume_of_none (extract : String → ExtractOutcome) (st : JobStore)
    (m : QueueMessage) (h : JobStore.get st m.jobId = none) :
    consumeMessage extract st m = (st, false) := by
  simp [consumeMessage, h]

/-- Consuming a message whose job is already succeeded leaves the store
unchanged and runs no extraction. -/
theorem consume_of_succeeded (extract : String → ExtractOutcome) (st : JobStore)
    (m : QueueMessage) (job : Job) (hget : JobStore.get st m.jobId = some job)
    (hst : job.status = JobStatus.succeeded) :
    consumeMessage extract st m = (st, false) := by
  simp [consumeMessage, hget, hst]

/-- Consuming a message whose job is neither succeeded nor queued (it is
being processed by a concurrent consumer, or already failed) hits the
compare-and-swap conflict and is a no-op. -/
theorem consume_of_conflict (extract : String → ExtractOutcome) (st : JobStore)
    (m : QueueMessage) (job : Job) (hget : JobStore.get st m.jobId = some job)
    (hsucc : job.status ≠ JobStatus.succeeded)
    (hq : job.status ≠ JobStatus.queued) :
    consumeMessage extract st m = (st, false) := by
  simp [consumeMessage, transition, hget, hsucc, hq]

/-- Consuming a message whose job is queued claims it, runs the
extraction, and records the terminal status and fields. -/
theorem consume_of_queued (extract : String → ExtractOutcome) (st : JobStore)
    (m : QueueMessage) (job : Job) (hget : JobStore.get st m.jobId = some job)
    (hq : job.status = JobStatus.queued) :
    consumeMessage extract st m
      = match extract m.text with
        | ExtractOutcome.success r =>
            (JobStore.set
              (JobStore.set st m.jobId
                { job with status := JobStatus.processing, result := none, error := none })
              m.jobId
              { job with status := JobStatus.succeeded, result := some r, error := none },
             true)
        | ExtractOutcome.failure e =>
            (JobStore.set
              (JobStore.set st m.jobId
                { job with status := JobStatus.processing, result := none, error := none })
              m.jobId
              { job with status := JobStatus.failed, result := none, error := some e },
             true) := by
  have hne : job.status ≠ JobStatus.succeeded := by
    rw [hq]; intro hc; cases hc
  have hget₁ : JobStore.get
      (JobStore.set st m.jobId
        { job with status := JobStatus.processing, result := none, error := none })
      m.jobId
      = some { job with status := JobStatus.processing, result := none, error := none } :=
    JobStore.get_set_self st m.jobId _ job hget
  cases hex : extract m.text with
  | success r =>
    simp [consumeMessage, transition, hget, hne, hq, hget₁, hex]
  | failure e =>
    simp [consumeMessage, transition, hget, hne, hq, hget₁, hex]

/-- Two lookups of the same key in the same store agree, so the job's
status neither regresses nor re-enters the queued state. -/
theorem status_same_of_get_eq (st : JobStore) (id : String) (job job' : Job)
    (hget : JobStore.get st id = some job)
    (hget' : JobStore.get st id = some job') :
    statusRank job.status ≤ statusRank job'.status
    ∧ (job'.status = JobStatus.queued → job.status = JobStatus.queued) := by
  rw [hget] at hget'
  cases Option.some.inj hget'
  exact ⟨le_refl _, fun h => h⟩

/-- Claim C5: the Queue Consumer is idempotent with respect to the job
identifier — redelivering a message for a job that already succeeded is
a no-op: the store (and in particular the job's result) is unchanged and
the extraction logic does not run. -/
theorem consume_succeeded_redelivery_noop (extract : String → ExtractOutcome)
    (st : JobStore) (m : QueueMessage) (job : Job)
    (hget : JobStore.get st m.jobId = some job)
    (hst : job.status = JobStatus.succeeded) :
    consumeMessage extract st m = (st, false)
    ∧ JobStore.get (consumeMessage extract st m).1 m.jobId = some job := by
  have h := consume_of_succeeded extract st m job hget hst
  exact ⟨h, by rw [h]; exact hget⟩

/-- Witness for claim C5 at a concrete duplicate delivery. -/
theorem consume_succeeded_redelivery_noop_witness :
    consumeMessage (fun t => ExtractOutcome.success t)
        [("a", ⟨"a", "p", JobStatus.succeeded, some "r", none⟩)] ⟨"p", "a"⟩
      = ([("a", ⟨"a", "p", JobStatus.succeeded, some "r", none⟩)], false)
    ∧ JobStore.get (consumeMessage (fun t => ExtractOutcome.success t)
          [("a", ⟨"a", "p", JobStatus.succeeded, some "r", none⟩)] ⟨"p", "a"⟩).1 "a"
        = some ⟨"a", "p", JobStatus.succeeded, some "r", none⟩ :=
  consume_succeeded_redelivery_noop (fun t => ExtractOutcome.success t)
    [("a", ⟨"a", "p", JobStatus.succeeded, some "r", none⟩)] ⟨"p", "a"⟩
    ⟨"a", "p", JobStatus.succeeded, some "r", none⟩ rfl rfl

/-- Claim C6: a compare-and-swap transition attempted while the job's
current status is not in the expected source set fails with a conflict
and leaves the store unchanged. -/
theorem transition_conflict_leaves_store_unchanged (st : JobStore) (id : String)
    (fromSet : List JobStatus) (toStatus : JobStatus)
    (result error : Option String) (job : Job)
    (hget : JobStore.get st id = some job) (hnot : job.status ∉ fromSet) :
    transition st id fromSet toStatus result error
      = ⟨TransitionOutcome.conflict, st⟩ := by
  simp [transition, hget, hnot]

/-- Witness for claim C6 at a concrete conflicting transition. -/
theorem transition_conflict_leaves_store_unchanged_witness :
    transition [("a", ⟨"a", "p", JobStatus.succeeded, some "r", none⟩)] "a"
        [JobStatus.queued] JobStatus.processing none none
      = ⟨TransitionOutcome.conflict,
         [("a", ⟨"a", "p", JobStatus.succeeded, some "r", none⟩)]⟩ :=
  transition_conflict_leaves_store_unchanged
    [("a", ⟨"a", "p", JobStatus.succeeded, some "r", none⟩)] "a"
    [JobStatus.queued] JobStatus.processing none none
    ⟨"a", "p", JobStatus.succeeded, some "r", none⟩ rfl (by decide)

/-- Claim C7: job status only moves forward along
`queued -> processing -> (succeeded | failed)`.  The operations of the
subsystem that touch the store — consuming a delivered message and
creating a record at submission — never lower a job's status rank and
never move a job back into `queued`; creation leaves every existing
record untouched. -/
theorem job_status_monotonic :
    (∀ (extract : String → ExtractOutcome) (st : JobStore) (m : QueueMessage)
        (id : String) (job job' : Job),
        JobStore.get st id = some job →
        JobStore.get (consumeMessage extract st m).1 id = some job' →
        statusRank job.status ≤ statusRank job'.status
        ∧ (job'.status = JobStatus.queued → job.status = JobStatus.queued))
    ∧ (∀ (st st' : JobStore) (newId payload id : String) (job : Job),
        JobStore.create st newId payload = Except.ok st' →
        JobStore.get st id = some job →
        JobStore.get st' id = some job) := by
  constructor
  · intro extract st m id job job' hget hget'
    cases hjm : JobStore.get st m.jobId with
    | none =>
      rw [consume_of_none extract st m hjm] at hget'
      exact status_same_of_get_eq st id job job' hget hget'
    | some jb =>
      by_cases hsucc : jb.status = JobStatus.succeeded
      · rw [consume_of_succeeded extract st m jb hjm hsucc] at hget'
        exact status_same_of_get_eq st id job job' hget hget'
      · by_cases hq : jb.status = JobStatus.queued
        · rw [consume_of_queued extract st m jb hjm hq] at hget'
          by_cases hid : id = m.jobId
          · subst hid
            have hjj : job = jb := by
              rw [hget] at hjm
              exact Option.some.inj hjm
            cases hex : extract m.text with
            | success r =>
              rw [hex] at hget'
              have h₁ := JobStore.get_set_self st m.jobId
                { jb with status := JobStatus.processing, result := none, error := none }
                jb hjm
              have h₂ := JobStore.get_set_self _ m.jobId
                { jb with status := JobStatus.succeeded, result := some r, error := none }
                _ h₁
              rw [h₂] at hget'
              cases Option.some.inj hget'
              constructor
              · rw [hjj, hq]
                exact Nat.zero_le _
              · intro hcontra
                simp [statusRank] at hcontra
            | failure e =>
              rw [hex] at hget'
              have h₁ := JobStore.get_set_self st m.jobId
                { jb with status := JobStatus.processing, result := none, error := none }
                jb hjm
              have h₂ := JobStore.get_set_self _ m.jobId
                { jb with status := JobStatus.failed, result := none, error := some e }
                _ h₁
              rw [h₂] at hget'
              cases Option.some.inj hget'
              constructor
              · rw [hjj, hq]
                exact Nat.zero_le _
              · intro hcontra
                simp [statusRank] at hcontra
          · cases hex : extract m.text with
            | success r =>
              rw [hex] at hget'
              rw [JobStore.get_set_ne _ _ _ _ hid, JobStore.get_set_ne _ _ _ _ hid] at hget'
              exact status_same_of_get_eq st id job job' hget hget'
            | failure e =>
              rw [hex] at hget'
              rw [JobStore.get_set_ne _ _ _ _ hid, JobStore.get_set_ne _ _ _ _ hid] at hget'
              exact status_same_of_get_eq st id job job' hget hget'
        · rw [consume_of_conflict extract st m jb hjm hsucc hq] at hget'
          exact status_same_of_get_eq st id job job' hget hget'
  · intro st st' newId payload id job hcreate hget
    unfold JobStore.create at hcreate
    cases hn : JobStore.get st newId with
    | some j => rw [hn] at hcreate; cases hcreate
    | none =>
      rw [hn] at hcreate
      cases hcreate
      exact JobStore.get_append_of_some st _ id job hget

/-- Witness for claim C7: a concrete queued job processed to success,
and a concrete record creation next to an existing record. -/
theorem job_status_monotonic_witness :
    (statusRank (⟨"a", "p", JobStatus.queued, none, none⟩ : Job).status
        ≤ statusRank (⟨"a", "p", JobStatus.succeeded, some "txt", none⟩ : Job).status
      ∧ ((⟨"a", "p", JobStatus.succeeded, some "txt", none⟩ : Job).status = JobStatus.queued
          → (⟨"a", "p", JobStatus.queued, none, none⟩ : Job).status = JobStatus.queued))
    ∧ JobStore.get
        ([("a", ⟨"a", "p", JobStatus.queued, none, none⟩)]
          ++ [("b", ⟨"b", "q", JobStatus.queued, none, none⟩)]) "a"
        = some ⟨"a", "p", JobStatus.queued, none, none⟩ :=
  ⟨job_status_monotonic.1 (fun t => ExtractOutcome.success t)
      [("a", ⟨"a", "p", JobStatus.queued, none, none⟩)] ⟨"txt", "a"⟩ "a"
      ⟨"a", "p", JobStatus.queued, none, none⟩
      ⟨"a", "p", JobStatus.succeeded, some "txt", none⟩ rfl rfl,
   job_status_monotonic.2
      [("a", (⟨"a", "p", JobStatus.queued, none, none⟩ : Job))]
      ([("a", (⟨"a", "p", JobStatus.queued, none, none⟩ : Job))]
        ++ [("b", (⟨"b", "q", JobStatus.queued, none, none⟩ : Job))])
      "b" "q" "a" ⟨"a", "p", JobStatus.queued, none, none⟩ rfl rfl⟩
